import Mathlib

/-!
Shallow embedding of the payment-reconciliation core of the
red-mugsy-treasure-hunt-backend repository.

The relational store is modelled as lists of records (`Db`).  Prisma
`findFirst`/`findUnique` become `List.find?`; `update where {id}` becomes a
`List.map` that rewrites the rows whose id matches (prisma throws when no row
matches, which we model by a preceding `find?` returning `none` ⇒ `Except.error`,
aborting the enclosing transaction); `create` appends to the list.
A `prisma.$transaction` callback is a function `Db → Except String Db`: on
`error` the caller keeps the original `Db` (rollback).  Timestamps
(`createdAt`, `convertedAt`) and free-text fields that no claim mentions are
omitted.  Stripe signature verification (`stripe.webhooks.constructEvent`) is an
external collaborator; its outcome is the `signatureValid` field of the request.
-/

inductive Tier
  | FREE | PREMIUM | VIP
deriving DecidableEq, Repr

inductive PaymentStatus
  | PENDING | COMPLETED | FAILED
deriving DecidableEq, Repr

inductive ParticipantStatus
  | PENDING | APPROVED | ACTIVE | REJECTED | SUSPENDED
deriving DecidableEq, Repr

inductive PromoterStatus
  | PENDING | APPROVED | REJECTED
deriving DecidableEq, Repr

structure User where
  id : Nat
  email : String
deriving DecidableEq, Repr

structure Payment where
  id : Nat
  userId : Nat
  participantId : Nat
  stripeSessionId : String
  stripePaymentIntentId : String
  amount : Nat
  tier : Tier
  status : PaymentStatus
  failureReason : Option String
deriving DecidableEq, Repr

structure Participant where
  id : Nat
  userId : Nat
  tier : Tier
  status : ParticipantStatus
  referredBy : Option String
deriving DecidableEq, Repr

structure Referral where
  id : Nat
  promoterId : Nat
  participantEmail : String
  referralCode : String
  tier : Tier
  commission : Nat
  isConverted : Bool
  paymentId : Option Nat
deriving DecidableEq, Repr

structure Promoter where
  id : Nat
  userId : Nat
  referralCode : String
  status : PromoterStatus
  totalReferrals : Nat
  totalRevenue : Nat
deriving DecidableEq, Repr

structure AuditLogEntry where
  userId : Option Nat
  action : String
  entityType : String
  entityId : Nat
deriving DecidableEq, Repr

structure Db where
  users : List User
  payments : List Payment
  participants : List Participant
  referrals : List Referral
  promoters : List Promoter
  auditLog : List AuditLogEntry
deriving DecidableEq, Repr

/-- Metadata embedded into the Stripe checkout session at creation time and
echoed back on the `checkout.session.completed` event
(src/routes/payments.ts lines 85-90). -/
structure SessionMetadata where
  participantId : Nat
  userId : Nat
  tier : Tier
  referralCode : String
deriving DecidableEq, Repr

/-- The fields of a Stripe checkout-session object that the webhook handler
reads. -/
structure CheckoutSession where
  id : String
  payment_intent : String
  customer_email : String
  metadata : SessionMetadata
deriving DecidableEq, Repr

/-- The fields of a Stripe payment-intent object that the webhook handler
reads; failureMessage models last_payment_error?.message. -/
structure PaymentIntent where
  id : String
  failureMessage : Option String
deriving DecidableEq, Repr

/-- findFirst where stripeSessionId = session.id (stripe.ts lines 67-69). -/
def findSessionPayment (s : CheckoutSession) (db : Db) : Option Payment :=
  db.payments.find? (fun p => decide (p.stripeSessionId = s.id))

/-- payment.update: status COMPLETED, record the payment-intent id
(stripe.ts lines 75-82); applied to the rows whose id matches. -/
def completePayment (s : CheckoutSession) (payId : Nat) (p : Payment) : Payment :=
  if p.id = payId then
    { p with status := PaymentStatus.COMPLETED,
             stripePaymentIntentId := s.payment_intent }
  else p

/-- participant.update where id = metadata.participantId: status ACTIVE, tier
from metadata (stripe.ts lines 85-91). -/
def activateParticipant (s : CheckoutSession) (q : Participant) : Participant :=
  if q.id = s.metadata.participantId then
    { q with status := ParticipantStatus.ACTIVE, tier := s.metadata.tier }
  else q

/-- referral.findFirst where participantEmail = session.customer_email,
referralCode from metadata, isConverted false (stripe.ts lines 95-102). -/
def findUnconvertedReferral (s : CheckoutSession) (db : Db) : Option Referral :=
  db.referrals.find? (fun r =>
    decide (r.participantEmail = s.customer_email ∧
            r.referralCode = s.metadata.referralCode ∧
            r.isConverted = false))

/-- referral.update: mark converted and link the payment id
(stripe.ts lines 106-113). -/
def convertReferral (payId refId : Nat) (r : Referral) : Referral :=
  if r.id = refId then
    { r with isConverted := true, paymentId := some payId }
  else r

/-- promoter.update: increment totalReferrals by 1 and totalRevenue by the
referral's commission (stripe.ts lines 116-122). -/
def bumpPromoter (referral : Referral) (pr : Promoter) : Promoter :=
  if pr.id = referral.promoterId then
    { pr with totalReferrals := pr.totalReferrals + 1,
              totalRevenue := pr.totalRevenue + referral.commission }
  else pr

/-- The referral-commission branch of the checkout-completed transaction
(stripe.ts lines 94-124): run only when metadata.referralCode is truthy
(nonempty); if an unconverted matching referral exists, convert it and bump
the owning promoter, else do nothing. -/
def referralStep (s : CheckoutSession) (payId : Nat) (db : Db) :
    Except String (List Referral × List Promoter) :=
  if s.metadata.referralCode ≠ "" then
    match findUnconvertedReferral s db with
    | some referral =>
      match db.promoters.find? (fun pr => decide (pr.id = referral.promoterId)) with
      | none => Except.error "Record to update not found"
      | some _ =>
        Except.ok (db.referrals.map (convertReferral payId referral.id),
                   db.promoters.map (bumpPromoter referral))
    | none => Except.ok (db.referrals, db.promoters)
  else Except.ok (db.referrals, db.promoters)

/-- The audit-log row appended by the checkout-completed transaction
(stripe.ts lines 127-139). -/
def paymentCompletedAudit (s : CheckoutSession) (payment : Payment) : AuditLogEntry :=
  { userId := some s.metadata.userId, action := "PAYMENT_COMPLETED",
    entityType := "PAYMENT", entityId := payment.id }

/-- handleCheckoutSessionCompleted (stripe.ts lines 59-151): the five-step
prisma.$transaction.  An `error` result models a thrown exception inside the
transaction callback, i.e. a rollback. -/
def handleCheckoutSessionCompleted (s : CheckoutSession) (db : Db) : Except String Db :=
  match findSessionPayment s db with
  | none => Except.error ("Payment record not found for session " ++ s.id)
  | some payment =>
    match db.participants.find? (fun q => decide (q.id = s.metadata.participantId)) with
    | none => Except.error "Record to update not found"
    | some _ =>
      match referralStep s payment.id db with
      | Except.error e => Except.error e
      | Except.ok (referrals, promoters) =>
        Except.ok { db with
          payments := db.payments.map (completePayment s payment.id),
          participants := db.participants.map (activateParticipant s),
          referrals := referrals,
          promoters := promoters,
          auditLog := db.auditLog ++ [paymentCompletedAudit s payment] }

/-- handlePaymentIntentFailed (stripe.ts lines 162-203): find the payment by
stripePaymentIntentId; if found, mark it FAILED with the failure reason and
append an audit row; if not found, do nothing. -/
def handlePaymentIntentFailed (paymentIntent : PaymentIntent) (db : Db) : Db :=
  match db.payments.find? (fun p => decide (p.stripePaymentIntentId = paymentIntent.id)) with
  | none => db
  | some payment =>
    { db with
      payments := db.payments.map (fun p =>
        if p.id = payment.id then
          { p with status := PaymentStatus.FAILED,
                   failureReason := paymentIntent.failureMessage }
        else p),
      auditLog := db.auditLog ++
        [{ userId := some payment.userId, action := "PAYMENT_FAILED",
           entityType := "PAYMENT", entityId := payment.id }] }

/-- The event kinds dispatched by the webhook router (stripe.ts lines 29-49). -/
inductive StripeEvent
  | checkoutSessionCompleted (session : CheckoutSession)
  | paymentIntentSucceeded (paymentIntent : PaymentIntent)
  | paymentIntentFailed (paymentIntent : PaymentIntent)
  | otherEvent (eventType : String)
deriving DecidableEq, Repr

/-- An inbound webhook request; signatureValid is the outcome of
stripe.webhooks.constructEvent over the raw body and signature header. -/
structure WebhookRequest where
  signatureValid : Bool
  event : StripeEvent
deriving DecidableEq, Repr

/-- router.post of /webhooks/stripe (stripe.ts lines 15-56): returns the HTTP
status and the resulting store.  Signature failure ⇒ 400, nothing touched;
a handler error ⇒ 500 with the transaction rolled back; otherwise 200
(received true).  handlePaymentIntentSucceeded is a logging no-op
(stripe.ts lines 154-159), as are unhandled event types. -/
def webhookPost (req : WebhookRequest) (db : Db) : Nat × Db :=
  if req.signatureValid = false then (400, db)
  else
    match req.event with
    | StripeEvent.checkoutSessionCompleted s =>
      match handleCheckoutSessionCompleted s db with
      | Except.ok db2 => (200, db2)
      | Except.error _ => (500, db)
    | StripeEvent.paymentIntentSucceeded _ => (200, db)
    | StripeEvent.paymentIntentFailed paymentIntent =>
      (200, handlePaymentIntentFailed paymentIntent db)
    | StripeEvent.otherEvent _ => (200, db)

/-- The static tier price table (payments.ts lines 24-27); FREE never reaches
the lookup because the request schema only admits PREMIUM and VIP. -/
def TIER_PRICES : Tier → Nat
  | Tier.PREMIUM => 99
  | Tier.VIP => 299
  | Tier.FREE => 0

/-- Validated body of POST /api/payments/create-session (payments.ts
lines 16-21); successUrl/cancelUrl are opaque to every claim and omitted. -/
structure CreateSessionInput where
  tier : Tier
  participantId : Nat
deriving DecidableEq, Repr

/-- POST /api/payments/create-session (payments.ts lines 30-140).
requestUserId is the authenticated user; sessionId is the id Stripe returns
for the new checkout session and newPaymentId the id the store assigns to the
created Payment row (both supplied by external collaborators).  Errors carry
the HTTP status and message of the thrown AppError; the Stripe session's
metadata is returned alongside the new store so the webhook model can consume
it. -/
def createPaymentSession (requestUserId : Nat) (input : CreateSessionInput)
    (sessionId : String) (newPaymentId : Nat) (db : Db) :
    Except (Nat × String) (Db × SessionMetadata) :=
  if input.tier = Tier.FREE then
    Except.error (400, "Invalid enum value")
  else
    match db.participants.find? (fun q => decide (q.id = input.participantId)) with
    | none => Except.error (404, "Participant not found")
    | some participant =>
      if participant.userId ≠ requestUserId then
        Except.error (403, "Unauthorized access to participant record")
      else
        match db.payments.find? (fun p =>
            decide (p.participantId = participant.id ∧ p.tier = input.tier ∧
                    p.status = PaymentStatus.COMPLETED)) with
        | some _ => Except.error (400, "Payment already completed for this tier")
        | none =>
          let amount := TIER_PRICES input.tier
          let metadata : SessionMetadata :=
            { participantId := participant.id, userId := participant.userId,
              tier := input.tier,
              referralCode := participant.referredBy.getD "" }
          let payment : Payment :=
            { id := newPaymentId, userId := participant.userId,
              participantId := participant.id, stripeSessionId := sessionId,
              stripePaymentIntentId := "pending", amount := amount,
              tier := input.tier, status := PaymentStatus.PENDING,
              failureReason := none }
          Except.ok
            ({ db with
               payments := db.payments ++ [payment],
               auditLog := db.auditLog ++
                 [{ userId := some requestUserId, action := "PAYMENT_SESSION_CREATED",
                    entityType := "PAYMENT", entityId := newPaymentId }] },
             metadata)

/-- The route-level view of createPaymentSession: a thrown AppError is turned
into its HTTP status by the error middleware and the transactionless writes
never happened (they all sit after every throw site), so the store is
unchanged on error. -/
def createPaymentSessionRoute (requestUserId : Nat) (input : CreateSessionInput)
    (sessionId : String) (newPaymentId : Nat) (db : Db) : Nat × Db :=
  match createPaymentSession requestUserId input sessionId newPaymentId db with
  | Except.error (code, _) => (code, db)
  | Except.ok (db2, _) => (200, db2)

/-- Validated body of POST /api/participants/register (participants.ts
lines 12-26), restricted to the fields the claims mention. -/
structure RegisterInput where
  email : String
  tier : Tier
  referralCode : Option String
deriving DecidableEq, Repr

/-- JS truthiness of the optional referralCode string: undefined and the empty
string are falsy. -/
def optTruthy : Option String → Bool
  | none => false
  | some s => decide (s ≠ "")

/-- POST /api/participants/register (participants.ts lines 39-167).
newUserId/newParticipantId/newReferralId are the ids the store assigns to the
created rows.  Password, profile and turnstile fields are opaque to the
claims and omitted; commission is created 0 ("Will be updated after payment")
and isConverted is created true exactly for FREE tier
(participants.ts lines 114-123). -/
def registerParticipant (input : RegisterInput)
    (newUserId newParticipantId newReferralId : Nat) (db : Db) :
    Except (Nat × String) Db :=
  if (db.users.find? (fun u => decide (u.email = input.email))).isSome then
    Except.error (409, "Email already registered. Please login instead.")
  else
    let lookup : Except (Nat × String) (Option Promoter) :=
      if optTruthy input.referralCode then
        match db.promoters.find? (fun pr =>
            decide (some pr.referralCode = input.referralCode ∧
                    pr.status = PromoterStatus.APPROVED)) with
        | none => Except.error (400, "Invalid referral code")
        | some pr => Except.ok (some pr)
      else Except.ok none
    match lookup with
    | Except.error e => Except.error e
    | Except.ok referredByPromoter =>
      let user : User := { id := newUserId, email := input.email }
      let participant : Participant :=
        { id := newParticipantId, userId := newUserId, tier := input.tier,
          status := if input.tier = Tier.FREE then ParticipantStatus.APPROVED
                    else ParticipantStatus.PENDING,
          referredBy := input.referralCode }
      let audit : AuditLogEntry :=
        { userId := some newUserId, action := "PARTICIPANT_REGISTER",
          entityType := "PARTICIPANT", entityId := newParticipantId }
      match referredByPromoter with
      | some pr =>
        Except.ok { db with
          users := db.users ++ [user],
          participants := db.participants ++ [participant],
          promoters := db.promoters.map (fun q =>
            if q.id = pr.id then { q with totalReferrals := q.totalReferrals + 1 }
            else q),
          referrals := db.referrals ++
            [{ id := newReferralId, promoterId := pr.id,
               participantEmail := input.email,
               referralCode := input.referralCode.getD "",
               tier := input.tier, commission := 0,
               isConverted := decide (input.tier = Tier.FREE),
               paymentId := none }],
          auditLog := db.auditLog ++ [audit] }
      | none =>
        Except.ok { db with
          users := db.users ++ [user],
          participants := db.participants ++ [participant],
          auditLog := db.auditLog ++ [audit] }

/-- generateReferralCode (promoters.ts lines 12-25): draw candidate codes
until one is not already held by a promoter.  The source loops on
Math.random draws; the draws list models the successive candidates, so the
unbounded while-loop becomes structural recursion over the supplied draws
(none ⇔ every supplied draw collided). -/
def generateReferralCode (db : Db) : List String → Option String
  | [] => none
  | code :: rest =>
    if (db.promoters.find? (fun pr => decide (pr.referralCode = code))).isSome then
      generateReferralCode db rest
    else some code

/-! Concrete fixtures used by counterexamples and witnesses. -/

def emptyDb : Db :=
  { users := [], payments := [], participants := [], referrals := [],
    promoters := [], auditLog := [] }

/-- A payment that already reached the terminal COMPLETED state, carrying the
payment-intent id recorded by the completion webhook. -/
def paymentCompleted1 : Payment :=
  { id := 1, userId := 4, participantId := 2, stripeSessionId := "cs_1",
    stripePaymentIntentId := "pi_1", amount := 99, tier := Tier.PREMIUM,
    status := PaymentStatus.COMPLETED, failureReason := none }

def dbCompleted : Db := { emptyDb with payments := [paymentCompleted1] }

/-- A payment that already reached the terminal FAILED state, together with
its participant. -/
def paymentFailed1 : Payment :=
  { id := 1, userId := 4, participantId := 2, stripeSessionId := "cs_2",
    stripePaymentIntentId := "pi_2", amount := 99, tier := Tier.PREMIUM,
    status := PaymentStatus.FAILED, failureReason := some "declined" }

def participant2 : Participant :=
  { id := 2, userId := 4, tier := Tier.PREMIUM,
    status := ParticipantStatus.PENDING, referredBy := none }

def dbFailed : Db :=
  { emptyDb with payments := [paymentFailed1], participants := [participant2] }

/-- A checkout-completed event whose metadata carries no referral code. -/
def sessNoRef : CheckoutSession :=
  { id := "cs_2", payment_intent := "pi_9", customer_email := "a@b.c",
    metadata := { participantId := 2, userId := 4, tier := Tier.PREMIUM,
                  referralCode := "" } }

/-- An approved promoter holding referral code REFAAAAAA with zeroed
counters. -/
def promAcme : Promoter :=
  { id := 7, userId := 9, referralCode := "REFAAAAAA",
    status := PromoterStatus.APPROVED, totalReferrals := 0, totalRevenue := 0 }

def dbProm : Db := { emptyDb with promoters := [promAcme] }

/-- Claim C1 (code evaluated at the failing input): the webhook accepts a
payment-failed event for a payment that is already COMPLETED and overwrites
the terminal status to FAILED — the COMPLETED to FAILED edge the claim rules
out.  handlePaymentIntentFailed never consults payment.status before the
update. -/
theorem C1_completed_overwritten_to_failed :
    ((webhookPost
        { signatureValid := true,
          event := StripeEvent.paymentIntentFailed
            { id := "pi_1", failureMessage := some "Your card was declined." } }
        dbCompleted).2.payments.map Payment.status) = [PaymentStatus.FAILED] ∧
    (webhookPost
        { signatureValid := true,
          event := StripeEvent.paymentIntentFailed
            { id := "pi_1", failureMessage := some "Your card was declined." } }
        dbCompleted).1 = 200 := by
  exact ⟨rfl, rfl⟩

/-- Claim C2 counterexample: the claim asserts the implementation checks the
payment's current status before applying the transition; it does not.  A
checkout-completed event for a payment already in the terminal FAILED state
is applied unconditionally, overwriting FAILED with COMPLETED (a status check
per the spec's terminal-state rule would have left it FAILED). -/
theorem C2_counterexample_no_status_check :
    ((webhookPost
        { signatureValid := true,
          event := StripeEvent.checkoutSessionCompleted sessNoRef }
        dbFailed).2.payments.map Payment.status) = [PaymentStatus.COMPLETED] := by
  exact rfl

/-- Claim C3 counterexample: registering a PREMIUM participant with a valid
referral code increments the promoter's totalReferrals at registration time,
with zero conversions having occurred (the created referral is unconverted),
so totalReferrals is not incremented only as a side effect of conversion and
does not equal the number of conversions. -/
theorem C3_counterexample_register_increments :
    (registerParticipant
        { email := "a@b.c", tier := Tier.PREMIUM, referralCode := some "REFAAAAAA" }
        1 2 3 dbProm).map
      (fun d => (d.promoters.map Promoter.totalReferrals,
                 d.referrals.map Referral.isConverted)) =
      Except.ok ([1], [false]) := by
  exact rfl

/-- Claim C8 counterexample: a FREE-tier registration with a valid referral
code creates the Referral with isConverted already true (participants.ts
line 121), not false as the claim states for every tier. -/
theorem C8_counterexample_free_tier_preconverted :
    (registerParticipant
        { email := "a@b.c", tier := Tier.FREE, referralCode := some "REFAAAAAA" }
        1 2 3 dbProm).map (fun d => d.referrals.map Referral.isConverted) =
      Except.ok [true] := by
  exact rfl

/-- Claim C5: a webhook request whose signature verification fails is answered
with HTTP 400 and the store is returned untouched — no record of any kind is
read-modified or written. -/
theorem C5_signature_failure_no_mutation (req : WebhookRequest) (db : Db)
    (h : req.signatureValid = false) :
    webhookPost req db = (400, db) := by
  simp [webhookPost, h]

/-- Claim C5 witness: the theorem applied to a concrete unsigned request over
the empty store. -/
theorem C5_signature_failure_witness :
    webhookPost { signatureValid := false, event := StripeEvent.otherEvent "evt" }
      emptyDb = (400, emptyDb) :=
  C5_signature_failure_no_mutation _ _ rfl

/-- Claim C7: a payment-failed event whose payment-intent id matches no
Payment row leaves the store unchanged and the router still acknowledges with
HTTP 200. -/
theorem C7_unknown_intent_noop (paymentIntent : PaymentIntent) (db : Db)
    (h : db.payments.find?
        (fun p => decide (p.stripePaymentIntentId = paymentIntent.id)) = none) :
    handlePaymentIntentFailed paymentIntent db = db ∧
    webhookPost
      { signatureValid := true,
        event := StripeEvent.paymentIntentFailed paymentIntent } db = (200, db) := by
  have h1 : handlePaymentIntentFailed paymentIntent db = db := by
    unfold handlePaymentIntentFailed
    rw [h]
  exact ⟨h1, by simp [webhookPost, h1]⟩

/-- Claim C7 witness: a payment-failed event for intent pi_404, which no
payment in the store carries. -/
theorem C7_unknown_intent_witness :
    handlePaymentIntentFailed { id := "pi_404", failureMessage := none } dbFailed =
      dbFailed ∧
    webhookPost
      { signatureValid := true,
        event := StripeEvent.paymentIntentFailed
          { id := "pi_404", failureMessage := none } } dbFailed = (200, dbFailed) :=
  C7_unknown_intent_noop _ _ rfl

/-- Claim C9: whenever generateReferralCode returns a code, that code collides
with no referral code already held by an existing promoter — the loop only
exits on a candidate absent from the existing set. -/
theorem C9_generated_code_fresh (db : Db) (draws : List String) (code : String)
    (h : generateReferralCode db draws = some code) :
    ∀ pr ∈ db.promoters, pr.referralCode ≠ code := by
  induction draws with
  | nil => simp [generateReferralCode] at h
  | cons c rest ih =>
    by_cases hc :
        (db.promoters.find? (fun pr => decide (pr.referralCode = c))).isSome
    · rw [generateReferralCode, if_pos hc] at h
      exact ih h
    · rw [generateReferralCode, if_neg hc] at h
      cases h
      intro pr hpr hEq
      exact hc (List.find?_isSome.2 ⟨pr, hpr, by simp [hEq]⟩)

/-- Claim C9 witness: with the first draw colliding with the existing promoter
and the second fresh, the generator returns the second draw, which no
promoter holds. -/
theorem C9_generated_code_witness :
    generateReferralCode dbProm ["REFAAAAAA", "REFBBBBBB"] = some "REFBBBBBB" ∧
    ∀ pr ∈ dbProm.promoters, pr.referralCode ≠ "REFBBBBBB" :=
  ⟨rfl, C9_generated_code_fresh dbProm ["REFAAAAAA", "REFBBBBBB"] "REFBBBBBB" rfl⟩

/-- Claim C6: when the participant exists, is owned by the caller, and already
holds a COMPLETED payment for the requested tier, create-session answers
HTTP 400 and the store is unchanged — no payment row, checkout session or
audit entry is created (every write in the route sits after the throw). -/
theorem C6_duplicate_purchase_rejected (requestUserId : Nat)
    (input : CreateSessionInput) (sessionId : String) (newPaymentId : Nat)
    (db : Db) (participant : Participant) (pay : Payment)
    (hpart : db.participants.find?
        (fun q => decide (q.id = input.participantId)) = some participant)
    (hown : participant.userId = requestUserId)
    (hdup : db.payments.find? (fun p =>
        decide (p.participantId = participant.id ∧ p.tier = input.tier ∧
                p.status = PaymentStatus.COMPLETED)) = some pay) :
    createPaymentSessionRoute requestUserId input sessionId newPaymentId db =
      (400, db) := by
  unfold createPaymentSessionRoute createPaymentSession
  by_cases hfree : input.tier = Tier.FREE
  · simp [hfree]
  · rw [if_neg hfree, hpart]
    have hdup2 : db.payments.find? (fun p =>
        decide (p.participantId = participant.id) &&
          (decide (p.tier = input.tier) &&
            decide (p.status = PaymentStatus.COMPLETED))) = some pay := by
      simpa using hdup
    simp [hown, hdup2]

def dbDup : Db :=
  { emptyDb with payments := [paymentCompleted1], participants := [participant2] }

/-- Claim C6 witness: participant 2 already holds a COMPLETED PREMIUM payment,
so a new PREMIUM session request by its owner is rejected with 400 and the
store stays intact. -/
theorem C6_duplicate_purchase_witness :
    createPaymentSessionRoute 4 { tier := Tier.PREMIUM, participantId := 2 }
      "cs_x" 10 dbDup = (400, dbDup) :=
  C6_duplicate_purchase_rejected 4 _ "cs_x" 10 dbDup participant2 paymentCompleted1
    rfl rfl rfl

/-- Claim C10: (1) a checkout session created for a participant with no
referrer carries the empty string as metadata referralCode; (2) a
checkout-completed event whose metadata referralCode is empty skips the
referral branch entirely — referrals, promoters and users are untouched and
only payments, participants and the audit log change. -/
theorem C10_no_referrer_frame :
    (∀ (requestUserId : Nat) (input : CreateSessionInput) (sessionId : String)
        (newPaymentId : Nat) (db db2 : Db) (metadata : SessionMetadata)
        (participant : Participant),
      createPaymentSession requestUserId input sessionId newPaymentId db =
          Except.ok (db2, metadata) →
      db.participants.find? (fun q => decide (q.id = input.participantId)) =
          some participant →
      participant.referredBy = none →
      metadata.referralCode = "") ∧
    (∀ (s : CheckoutSession) (db db2 : Db),
      s.metadata.referralCode = "" →
      handleCheckoutSessionCompleted s db = Except.ok db2 →
      db2.referrals = db.referrals ∧ db2.promoters = db.promoters ∧
      db2.users = db.users) := by
  constructor
  · intro requestUserId input sessionId newPaymentId db db2 metadata participant
      h hpart href
    unfold createPaymentSession at h
    by_cases hfree : input.tier = Tier.FREE
    · rw [if_pos hfree] at h
      exact absurd h (by simp)
    · rw [if_neg hfree, hpart] at h
      dsimp only at h
      by_cases hown : participant.userId ≠ requestUserId
      · rw [if_pos hown] at h
        exact absurd h (by simp)
      · rw [if_neg hown] at h
        cases hdup : db.payments.find? (fun p =>
            decide (p.participantId = participant.id ∧ p.tier = input.tier ∧
                    p.status = PaymentStatus.COMPLETED)) with
        | some p0 =>
          rw [hdup] at h
          exact absurd h (by simp)
        | none =>
          rw [hdup] at h
          simp only [Except.ok.injEq, Prod.mk.injEq] at h
          rw [← h.2, href]
          rfl
  · intro s db db2 hcode h
    have hrs : ∀ payId, referralStep s payId db =
        Except.ok (db.referrals, db.promoters) := by
      intro payId
      unfold referralStep
      rw [hcode]
      simp
    unfold handleCheckoutSessionCompleted at h
    cases hfp : findSessionPayment s db with
    | none => rw [hfp] at h; exact absurd h (by simp)
    | some payment =>
      rw [hfp] at h
      cases hpq : db.participants.find?
          (fun q => decide (q.id = s.metadata.participantId)) with
      | none => rw [hpq] at h; exact absurd h (by simp)
      | some q0 =>
        rw [hpq] at h
        dsimp only at h
        rw [hrs] at h
        simp only [Except.ok.injEq] at h
        rw [← h]
        exact ⟨rfl, rfl, rfl⟩

def defaultMetadata : SessionMetadata :=
  { participantId := 0, userId := 0, tier := Tier.FREE, referralCode := "" }

/-- The result of a concrete no-referrer create-session run over dbFailed. -/
def c10run : Db × SessionMetadata :=
  match createPaymentSession 4 { tier := Tier.PREMIUM, participantId := 2 }
      "cs_new" 10 dbFailed with
  | Except.ok x => x
  | Except.error _ => (emptyDb, defaultMetadata)

/-- The result of a concrete empty-referral-code checkout-completed run. -/
def c10run2 : Db :=
  match handleCheckoutSessionCompleted sessNoRef dbFailed with
  | Except.ok d => d
  | Except.error _ => emptyDb

/-- Claim C10 witness: both halves of the theorem applied at concrete runs —
participant 2 has no referrer, so the session metadata gets referralCode "",
and processing the empty-code event leaves referrals, promoters and users
untouched. -/
theorem C10_no_referrer_witness :
    c10run.2.referralCode = "" ∧
    (c10run2.referrals = dbFailed.referrals ∧
     c10run2.promoters = dbFailed.promoters ∧
     c10run2.users = dbFailed.users) :=
  ⟨C10_no_referrer_frame.1 4 { tier := Tier.PREMIUM, participantId := 2 } "cs_new"
      10 dbFailed c10run.1 c10run.2 participant2 rfl rfl rfl,
   C10_no_referrer_frame.2 sessNoRef dbFailed c10run2 rfl rfl⟩

/-! Helper lemmas about the row-update functions. -/

theorem completePayment_stripeSessionId (s : CheckoutSession) (payId : Nat)
    (p : Payment) :
    (completePayment s payId p).stripeSessionId = p.stripeSessionId := by
  unfold completePayment
  split <;> rfl

theorem completePayment_id (s : CheckoutSession) (payId : Nat) (p : Payment) :
    (completePayment s payId p).id = p.id := by
  unfold completePayment
  split <;> rfl

theorem completePayment_idem (s : CheckoutSession) (payId : Nat) (p : Payment) :
    completePayment s payId (completePayment s payId p) =
      completePayment s payId p := by
  unfold completePayment
  by_cases h : p.id = payId <;> simp [h]

theorem activateParticipant_id (s : CheckoutSession) (q : Participant) :
    (activateParticipant s q).id = q.id := by
  unfold activateParticipant
  split <;> rfl

theorem activateParticipant_idem (s : CheckoutSession) (q : Participant) :
    activateParticipant s (activateParticipant s q) = activateParticipant s q := by
  unfold activateParticipant
  by_cases h : q.id = s.metadata.participantId <;> simp [h]

theorem convertReferral_id (payId refId : Nat) (r : Referral) :
    (convertReferral payId refId r).id = r.id := by
  unfold convertReferral
  split <;> rfl

/-- Mapping the payment update over the table commutes with the session
lookup, because the update never changes stripeSessionId. -/
theorem find?_map_completePayment (s : CheckoutSession) (payId : Nat)
    (l : List Payment) :
    (l.map (completePayment s payId)).find?
        (fun p => decide (p.stripeSessionId = s.id)) =
      (l.find? (fun p => decide (p.stripeSessionId = s.id))).map
        (completePayment s payId) := by
  have hp : ((fun p : Payment => decide (p.stripeSessionId = s.id)) ∘
      completePayment s payId) =
      (fun p : Payment => decide (p.stripeSessionId = s.id)) := by
    funext p
    show decide ((completePayment s payId p).stripeSessionId = s.id) = _
    rw [completePayment_stripeSessionId]
  rw [List.find?_map, hp]

/-- Mapping the participant update over the table commutes with the id
lookup, because the update never changes the id. -/
theorem findParticipant_map (s : CheckoutSession) (l : List Participant) :
    (l.map (activateParticipant s)).find?
        (fun q => decide (q.id = s.metadata.participantId)) =
      (l.find? (fun q => decide (q.id = s.metadata.participantId))).map
        (activateParticipant s) := by
  have hq : ((fun q : Participant => decide (q.id = s.metadata.participantId)) ∘
      activateParticipant s) =
      (fun q : Participant => decide (q.id = s.metadata.participantId)) := by
    funext q
    show decide ((activateParticipant s q).id = s.metadata.participantId) = _
    rw [activateParticipant_id]
  rw [List.find?_map, hq]

/-- Claim C4: the five steps of checkout-completed handling run inside one
prisma transaction.  If any step throws (payment row missing, participant or
promoter row missing), the router answers 500 and the store — in particular
the payment — is exactly its pre-transaction state; if the transaction
succeeds, all five effects are committed together: the payment is rewritten
COMPLETED with the provider's payment-intent id, the participant is ACTIVE
with the metadata tier, the referral/promoter updates of referralStep are
applied, and exactly one audit row is appended. -/
theorem C4_checkout_atomicity (s : CheckoutSession) (db : Db) :
    ((∃ e, handleCheckoutSessionCompleted s db = Except.error e) →
      webhookPost
        { signatureValid := true,
          event := StripeEvent.checkoutSessionCompleted s } db = (500, db)) ∧
    (∀ db2, handleCheckoutSessionCompleted s db = Except.ok db2 →
      webhookPost
        { signatureValid := true,
          event := StripeEvent.checkoutSessionCompleted s } db = (200, db2) ∧
      db2.users = db.users ∧
      ∃ payment, findSessionPayment s db = some payment ∧
        completePayment s payment.id payment ∈ db2.payments ∧
        (completePayment s payment.id payment).status = PaymentStatus.COMPLETED ∧
        (completePayment s payment.id payment).stripePaymentIntentId =
          s.payment_intent ∧
        (∀ q ∈ db.participants, q.id = s.metadata.participantId →
          activateParticipant s q ∈ db2.participants ∧
          (activateParticipant s q).status = ParticipantStatus.ACTIVE ∧
          (activateParticipant s q).tier = s.metadata.tier) ∧
        (∃ refs pros, referralStep s payment.id db = Except.ok (refs, pros) ∧
          db2.referrals = refs ∧ db2.promoters = pros) ∧
        db2.auditLog = db.auditLog ++ [paymentCompletedAudit s payment]) := by
  constructor
  · rintro ⟨e, he⟩
    simp [webhookPost, he]
  · intro db2 h
    refine ⟨by simp [webhookPost, h], ?_⟩
    unfold handleCheckoutSessionCompleted at h
    cases hfp : findSessionPayment s db with
    | none => rw [hfp] at h; exact absurd h (by simp)
    | some payment =>
      rw [hfp] at h
      dsimp only at h
      cases hpq : db.participants.find?
          (fun q => decide (q.id = s.metadata.participantId)) with
      | none => rw [hpq] at h; exact absurd h (by simp)
      | some q0 =>
        rw [hpq] at h
        dsimp only at h
        cases hrs : referralStep s payment.id db with
        | error e => rw [hrs] at h; exact absurd h (by simp)
        | ok pair =>
          obtain ⟨refs, pros⟩ := pair
          rw [hrs] at h
          dsimp only at h
          simp only [Except.ok.injEq] at h
          have hmem : payment ∈ db.payments := by
            unfold findSessionPayment at hfp
            exact List.mem_of_find?_eq_some hfp
          refine ⟨by rw [← h], payment, rfl, ?_, ?_, ?_, ?_, ?_, ?_⟩
          · rw [← h]
            exact List.mem_map_of_mem _ hmem
          · simp [completePayment]
          · simp [completePayment]
          · intro q hq hid
            refine ⟨?_, ?_, ?_⟩
            · rw [← h]
              exact List.mem_map_of_mem _ hq
            · simp [activateParticipant, hid]
            · simp [activateParticipant, hid]
          · exact ⟨refs, pros, hrs, by rw [← h], by rw [← h]⟩
          · rw [← h]

/-! Conversion-scenario fixtures: a PENDING PREMIUM payment for session cs_3,
its referred participant, the unconverted referral and the owning promoter. -/

def paymentPending3 : Payment :=
  { id := 1, userId := 4, participantId := 2, stripeSessionId := "cs_3",
    stripePaymentIntentId := "pending", amount := 99, tier := Tier.PREMIUM,
    status := PaymentStatus.PENDING, failureReason := none }

def participant2ref : Participant :=
  { id := 2, userId := 4, tier := Tier.PREMIUM,
    status := ParticipantStatus.PENDING, referredBy := some "REFAAAAAA" }

def referral3 : Referral :=
  { id := 3, promoterId := 7, participantEmail := "a@b.c",
    referralCode := "REFAAAAAA", tier := Tier.PREMIUM, commission := 0,
    isConverted := false, paymentId := none }

def wdb : Db :=
  { users := [{ id := 4, email := "a@b.c" }], payments := [paymentPending3],
    participants := [participant2ref], referrals := [referral3],
    promoters := [promAcme], auditLog := [] }

def wsess : CheckoutSession :=
  { id := "cs_3", payment_intent := "pi_3", customer_email := "a@b.c",
    metadata := { participantId := 2, userId := 4, tier := Tier.PREMIUM,
                  referralCode := "REFAAAAAA" } }

/-- The store after the first processing of the cs_3 completion event. -/
def wdb1 : Db :=
  match handleCheckoutSessionCompleted wsess wdb with
  | Except.ok d => d
  | Except.error _ => emptyDb

/-- A checkout-completed event no payment row matches. -/
def sessNope : CheckoutSession :=
  { id := "cs_nope", payment_intent := "pi_0", customer_email := "x@y.z",
    metadata := { participantId := 0, userId := 0, tier := Tier.VIP,
                  referralCode := "" } }

/-- Claim C4 witness: the success side applied to the concrete conversion
scenario, and the rollback side applied to a store with no payment row for
the session — the router answers 500 with the store unchanged. -/
theorem C4_checkout_atomicity_witness :
    webhookPost
      { signatureValid := true,
        event := StripeEvent.checkoutSessionCompleted wsess } wdb = (200, wdb1) ∧
    webhookPost
      { signatureValid := true,
        event := StripeEvent.checkoutSessionCompleted sessNope } dbCompleted =
      (500, dbCompleted) :=
  ⟨((C4_checkout_atomicity wsess wdb).2 wdb1 rfl).1,
   (C4_checkout_atomicity sessNope dbCompleted).1 ⟨_, rfl⟩⟩

/-- Claim C3 amended: promoter counters change at exactly two places —
registration with a valid referral code increments the referrer's
totalReferrals by one (totalRevenue untouched), and the checkout-completed
conversion increments the owning promoter's totalReferrals by one and its
totalRevenue by the converted referral's commission; the payment-failed
handler and session creation never touch promoters.  Hence totalRevenue after
N conversions is the sum of the N commissions, while totalReferrals counts
referred registrations plus conversions, not conversions alone. -/
theorem C3_amended_counter_discipline :
    (∀ (input : RegisterInput) (newUserId newParticipantId newReferralId : Nat)
        (db db2 : Db),
      registerParticipant input newUserId newParticipantId newReferralId db =
          Except.ok db2 →
      db2.promoters = db.promoters ∨
      ∃ pr, db.promoters.find? (fun q =>
          decide (some q.referralCode = input.referralCode ∧
                  q.status = PromoterStatus.APPROVED)) = some pr ∧
        db2.promoters = db.promoters.map (fun q =>
          if q.id = pr.id then { q with totalReferrals := q.totalReferrals + 1 }
          else q)) ∧
    (∀ (s : CheckoutSession) (db db2 : Db),
      handleCheckoutSessionCompleted s db = Except.ok db2 →
      db2.promoters = db.promoters ∨
      ∃ r, findUnconvertedReferral s db = some r ∧
        db2.promoters = db.promoters.map (bumpPromoter r)) ∧
    (∀ (paymentIntent : PaymentIntent) (db : Db),
      (handlePaymentIntentFailed paymentIntent db).promoters = db.promoters) ∧
    (∀ (requestUserId : Nat) (input : CreateSessionInput) (sessionId : String)
        (newPaymentId : Nat) (db db2 : Db) (metadata : SessionMetadata),
      createPaymentSession requestUserId input sessionId newPaymentId db =
          Except.ok (db2, metadata) →
      db2.promoters = db.promoters) := by
  refine ⟨?_, ?_, ?_, ?_⟩
  · intro input newUserId newParticipantId newReferralId db db2 h
    unfold registerParticipant at h
    by_cases hex : (db.users.find? (fun u => decide (u.email = input.email))).isSome
    · rw [if_pos hex] at h
      exact absurd h (by simp)
    · rw [if_neg hex] at h
      dsimp only at h
      by_cases htr : optTruthy input.referralCode = true
      · rw [if_pos htr] at h
        cases hpr : db.promoters.find? (fun q =>
            decide (some q.referralCode = input.referralCode ∧
                    q.status = PromoterStatus.APPROVED)) with
        | none =>
          rw [hpr] at h
          exact absurd h (by simp)
        | some pr =>
          rw [hpr] at h
          dsimp only at h
          simp only [Except.ok.injEq] at h
          right
          exact ⟨pr, rfl, by rw [← h]⟩
      · rw [if_neg htr] at h
        dsimp only at h
        simp only [Except.ok.injEq] at h
        left
        rw [← h]
  · intro s db db2 h
    unfold handleCheckoutSessionCompleted at h
    cases hfp : findSessionPayment s db with
    | none => rw [hfp] at h; exact absurd h (by simp)
    | some payment =>
      rw [hfp] at h
      dsimp only at h
      cases hpq : db.participants.find?
          (fun q => decide (q.id = s.metadata.participantId)) with
      | none => rw [hpq] at h; exact absurd h (by simp)
      | some q0 =>
        rw [hpq] at h
        dsimp only at h
        cases hrs : referralStep s payment.id db with
        | error e => rw [hrs] at h; exact absurd h (by simp)
        | ok pair =>
          obtain ⟨refs, pros⟩ := pair
          rw [hrs] at h
          dsimp only at h
          simp only [Except.ok.injEq] at h
          unfold referralStep at hrs
          by_cases hcode : s.metadata.referralCode ≠ ""
          · rw [if_pos hcode] at hrs
            cases hfr : findUnconvertedReferral s db with
            | none =>
              rw [hfr] at hrs
              dsimp only at hrs
              simp only [Except.ok.injEq, Prod.mk.injEq] at hrs
              left
              rw [← h, ← hrs.2]
            | some r0 =>
              rw [hfr] at hrs
              dsimp only at hrs
              cases hfd : db.promoters.find?
                  (fun pr => decide (pr.id = r0.promoterId)) with
              | none => rw [hfd] at hrs; exact absurd hrs (by simp)
              | some pr0 =>
                rw [hfd] at hrs
                dsimp only at hrs
                simp only [Except.ok.injEq, Prod.mk.injEq] at hrs
                right
                refine ⟨r0, rfl, ?_⟩
                rw [← h, ← hrs.2]
          · rw [if_neg hcode] at hrs
            simp only [Except.ok.injEq, Prod.mk.injEq] at hrs
            left
            rw [← h, ← hrs.2]
  · intro paymentIntent db
    unfold handlePaymentIntentFailed
    cases hf : db.payments.find?
        (fun p => decide (p.stripePaymentIntentId = paymentIntent.id)) with
    | none => rfl
    | some payment => rfl
  · intro requestUserId input sessionId newPaymentId db db2 metadata h
    unfold createPaymentSession at h
    by_cases hfree : input.tier = Tier.FREE
    · rw [if_pos hfree] at h
      exact absurd h (by simp)
    · rw [if_neg hfree] at h
      cases hpart : db.participants.find?
          (fun q => decide (q.id = input.participantId)) with
      | none => rw [hpart] at h; exact absurd h (by simp)
      | some participant =>
        rw [hpart] at h
        dsimp only at h
        by_cases hown : participant.userId ≠ requestUserId
        · rw [if_pos hown] at h
          exact absurd h (by simp)
        · rw [if_neg hown] at h
          cases hdup : db.payments.find? (fun p =>
              decide (p.participantId = participant.id ∧ p.tier = input.tier ∧
                      p.status = PaymentStatus.COMPLETED)) with
          | some p0 => rw [hdup] at h; exact absurd h (by simp)
          | none =>
            rw [hdup] at h
            simp only [Except.ok.injEq, Prod.mk.injEq] at h
            rw [← h.1]

def c3input : RegisterInput :=
  { email := "a@b.c", tier := Tier.PREMIUM, referralCode := some "REFAAAAAA" }

/-- The store after a concrete referred PREMIUM registration over dbProm. -/
def c3run : Db :=
  match registerParticipant c3input 1 2 3 dbProm with
  | Except.ok d => d
  | Except.error _ => emptyDb

/-- Claim C3 witness: all four parts of the counter-discipline theorem applied
at concrete runs — the referred registration, the converting webhook run, a
payment-failed run, and a session-creation run. -/
theorem C3_amended_witness :
    (c3run.promoters = dbProm.promoters ∨
      ∃ pr, dbProm.promoters.find? (fun q =>
          decide (some q.referralCode = c3input.referralCode ∧
                  q.status = PromoterStatus.APPROVED)) = some pr ∧
        c3run.promoters = dbProm.promoters.map (fun q =>
          if q.id = pr.id then { q with totalReferrals := q.totalReferrals + 1 }
          else q)) ∧
    (wdb1.promoters = wdb.promoters ∨
      ∃ r, findUnconvertedReferral wsess wdb = some r ∧
        wdb1.promoters = wdb.promoters.map (bumpPromoter r)) ∧
    (handlePaymentIntentFailed { id := "pi_0", failureMessage := none }
        emptyDb).promoters = emptyDb.promoters ∧
    c10run.1.promoters = dbFailed.promoters :=
  ⟨C3_amended_counter_discipline.1 c3input 1 2 3 dbProm c3run rfl,
   C3_amended_counter_discipline.2.1 wsess wdb wdb1 rfl,
   C3_amended_counter_discipline.2.2.1 { id := "pi_0", failureMessage := none }
     emptyDb,
   C3_amended_counter_discipline.2.2.2 4 { tier := Tier.PREMIUM, participantId := 2 }
     "cs_new" 10 dbFailed c10run.1 c10run.2 rfl⟩

/-- Claim C8 amended: when registration is given a valid (truthy) referral
code it appends exactly one Referral, owned by the looked-up promoter, with
commission 0, no linked payment, and isConverted equal to whether the tier is
FREE — so for paid tiers the referral is created unconverted and converted
only later (by the checkout-completed transaction, per the C3/C4 theorems),
while a FREE-tier referral is created already converted. -/
theorem C8_amended_referral_creation (input : RegisterInput)
    (newUserId newParticipantId newReferralId : Nat) (db db2 : Db) (pr : Promoter)
    (hpr : db.promoters.find? (fun q =>
        decide (some q.referralCode = input.referralCode ∧
                q.status = PromoterStatus.APPROVED)) = some pr)
    (htr : optTruthy input.referralCode = true)
    (h : registerParticipant input newUserId newParticipantId newReferralId db =
        Except.ok db2) :
    ∃ r, db2.referrals = db.referrals ++ [r] ∧
      r.isConverted = decide (input.tier = Tier.FREE) ∧
      r.promoterId = pr.id ∧ r.commission = 0 ∧ r.paymentId = none := by
  unfold registerParticipant at h
  by_cases hex : (db.users.find? (fun u => decide (u.email = input.email))).isSome
  · rw [if_pos hex] at h
    exact absurd h (by simp)
  · rw [if_neg hex] at h
    dsimp only at h
    rw [if_pos htr, hpr] at h
    dsimp only at h
    simp only [Except.ok.injEq] at h
    exact ⟨_, by rw [← h], rfl, rfl, rfl, rfl⟩

/-- Claim C8 witness: the amended theorem applied to the concrete referred
PREMIUM registration — the created referral is unconverted. -/
theorem C8_amended_witness :
    ∃ r, c3run.referrals = dbProm.referrals ++ [r] ∧
      r.isConverted = decide (c3input.tier = Tier.FREE) ∧
      r.promoterId = promAcme.id ∧ r.commission = 0 ∧ r.paymentId = none :=
  C8_amended_referral_creation c3input 1 2 3 dbProm c3run promAcme rfl rfl rfl

/-- Re-applying the payment rewrite is the identity on an already rewritten
table: the same values are written again. -/
theorem map_completePayment_idem (s : CheckoutSession) (payId : Nat)
    (l : List Payment) :
    (l.map (completePayment s payId)).map (completePayment s payId) =
      l.map (completePayment s payId) := by
  rw [List.map_map]
  exact List.map_congr_left (fun p _ => completePayment_idem s payId p)

/-- Re-applying the participant rewrite is the identity on an already
rewritten table. -/
theorem map_activateParticipant_idem (s : CheckoutSession) (l : List Participant) :
    (l.map (activateParticipant s)).map (activateParticipant s) =
      l.map (activateParticipant s) := by
  rw [List.map_map]
  exact List.map_congr_left (fun q _ => activateParticipant_idem s q)

/-- After converting the unique matching unconverted referral, the
isConverted-false lookup finds nothing: the converted row no longer matches,
and uniqueness rules out a second matching row. -/
theorem findUnconvertedReferral_after_convert (s : CheckoutSession) (payId : Nat)
    (db : Db) (r0 : Referral)
    (hfr : findUnconvertedReferral s db = some r0)
    (huniq : (db.referrals.filter (fun r =>
        decide (r.participantEmail = s.customer_email ∧
                r.referralCode = s.metadata.referralCode ∧
                r.isConverted = false))).length ≤ 1) :
    (db.referrals.map (convertReferral payId r0.id)).find? (fun r =>
        decide (r.participantEmail = s.customer_email ∧
                r.referralCode = s.metadata.referralCode ∧
                r.isConverted = false)) = none := by
  unfold findUnconvertedReferral at hfr
  have hr0mem : r0 ∈ db.referrals := List.mem_of_find?_eq_some hfr
  have hr0p := List.find?_some hfr
  have hmemf : r0 ∈ db.referrals.filter (fun r =>
      decide (r.participantEmail = s.customer_email ∧
              r.referralCode = s.metadata.referralCode ∧
              r.isConverted = false)) := List.mem_filter.2 ⟨hr0mem, hr0p⟩
  have hfilter : db.referrals.filter (fun r =>
      decide (r.participantEmail = s.customer_email ∧
              r.referralCode = s.metadata.referralCode ∧
              r.isConverted = false)) = [r0] := by
    cases hf : db.referrals.filter (fun r =>
        decide (r.participantEmail = s.customer_email ∧
                r.referralCode = s.metadata.referralCode ∧
                r.isConverted = false)) with
    | nil => rw [hf] at hmemf; cases hmemf
    | cons a t =>
      rw [hf] at hmemf huniq
      cases t with
      | cons b t2 => simp at huniq
      | nil =>
        have ha : r0 = a := by simpa using hmemf
        rw [ha]
  rw [List.find?_eq_none]
  intro x hx
  obtain ⟨y, hy, hyx⟩ := List.mem_map.1 hx
  by_cases hid : y.id = r0.id
  · rw [← hyx]
    simp [convertReferral, hid]
  · have hconv : convertReferral payId r0.id y = y := by
      simp [convertReferral, hid]
    rw [← hyx, hconv]
    intro hpy
    have hyf : y ∈ db.referrals.filter (fun r =>
        decide (r.participantEmail = s.customer_email ∧
                r.referralCode = s.metadata.referralCode ∧
                r.isConverted = false)) := List.mem_filter.2 ⟨hy, hpy⟩
    rw [hfilter] at hyf
    have hyr : y = r0 := by simpa using hyf
    exact hid (by rw [hyr])

/-- Claim C2 amended: redelivering the same checkout-completed event onto the
state produced by the first processing succeeds and leaves payments,
participants, referrals, promoters and users exactly as after the first run —
one COMPLETED payment, one ACTIVE participant, at most one converted
referral, no further counter change — but not because the implementation
checks the payment's current status (it does not): the same values are
rewritten and the isConverted-false lookup finds nothing, and one duplicate
audit-log row is appended.  The uniqueness hypothesis says at most one
unconverted referral matches the event's email and code, which registration
guarantees (one referral per registered email). -/
theorem C2_amended_redelivery_noop (s : CheckoutSession) (db db1 : Db)
    (huniq : (db.referrals.filter (fun r =>
        decide (r.participantEmail = s.customer_email ∧
                r.referralCode = s.metadata.referralCode ∧
                r.isConverted = false))).length ≤ 1)
    (h1 : handleCheckoutSessionCompleted s db = Except.ok db1) :
    ∃ db2, handleCheckoutSessionCompleted s db1 = Except.ok db2 ∧
      db2.payments = db1.payments ∧
      db2.participants = db1.participants ∧
      db2.referrals = db1.referrals ∧
      db2.promoters = db1.promoters ∧
      db2.users = db1.users ∧
      ∃ entry, db2.auditLog = db1.auditLog ++ [entry] := by
  unfold handleCheckoutSessionCompleted at h1
  cases hfp : findSessionPayment s db with
  | none => rw [hfp] at h1; exact absurd h1 (by simp)
  | some payment =>
    rw [hfp] at h1
    dsimp only at h1
    cases hpq : db.participants.find?
        (fun q => decide (q.id = s.metadata.participantId)) with
    | none => rw [hpq] at h1; exact absurd h1 (by simp)
    | some q0 =>
      rw [hpq] at h1
      dsimp only at h1
      cases hrs : referralStep s payment.id db with
      | error e => rw [hrs] at h1; exact absurd h1 (by simp)
      | ok pair =>
        obtain ⟨refs, pros⟩ := pair
        rw [hrs] at h1
        dsimp only at h1
        simp only [Except.ok.injEq] at h1
        have hdb1pay : db1.payments =
            db.payments.map (completePayment s payment.id) := by rw [← h1]
        have hdb1part : db1.participants =
            db.participants.map (activateParticipant s) := by rw [← h1]
        have hdb1ref : db1.referrals = refs := by rw [← h1]
        have hA : findSessionPayment s db1 =
            some (completePayment s payment.id payment) := by
          unfold findSessionPayment
          rw [hdb1pay, find?_map_completePayment]
          unfold findSessionPayment at hfp
          rw [hfp]
          rfl
        have hB : db1.participants.find?
            (fun q => decide (q.id = s.metadata.participantId)) =
            some (activateParticipant s q0) := by
          rw [hdb1part, findParticipant_map, hpq]
          rfl
        have hC : referralStep s payment.id db1 =
            Except.ok (db1.referrals, db1.promoters) := by
          unfold referralStep
          by_cases hcode : s.metadata.referralCode ≠ ""
          · rw [if_pos hcode]
            have hnone : findUnconvertedReferral s db1 = none := by
              unfold referralStep at hrs
              rw [if_pos hcode] at hrs
              cases hfr : findUnconvertedReferral s db with
              | none =>
                rw [hfr] at hrs
                dsimp only at hrs
                simp only [Except.ok.injEq, Prod.mk.injEq] at hrs
                unfold findUnconvertedReferral
                rw [hdb1ref, ← hrs.1]
                unfold findUnconvertedReferral at hfr
                exact hfr
              | some r0 =>
                rw [hfr] at hrs
                dsimp only at hrs
                cases hfd : db.promoters.find?
                    (fun pr => decide (pr.id = r0.promoterId)) with
                | none => rw [hfd] at hrs; exact absurd hrs (by simp)
                | some pr0 =>
                  rw [hfd] at hrs
                  dsimp only at hrs
                  simp only [Except.ok.injEq, Prod.mk.injEq] at hrs
                  unfold findUnconvertedReferral
                  rw [hdb1ref, ← hrs.1]
                  exact findUnconvertedReferral_after_convert s payment.id db r0
                    hfr huniq
            rw [hnone]
          · rw [if_neg hcode]
        have hrun : handleCheckoutSessionCompleted s db1 =
            Except.ok { db1 with
              payments := db1.payments.map (completePayment s payment.id),
              participants := db1.participants.map (activateParticipant s),
              auditLog := db1.auditLog ++
                [paymentCompletedAudit s (completePayment s payment.id payment)] } := by
          unfold handleCheckoutSessionCompleted
          rw [hA]
          dsimp only
          rw [hB]
          dsimp only
          rw [completePayment_id, hC]
        refine ⟨_, hrun, ?_, ?_, rfl, rfl, rfl, ⟨_, rfl⟩⟩
        · show db1.payments.map (completePayment s payment.id) = db1.payments
          rw [hdb1pay]
          exact map_completePayment_idem s payment.id db.payments
        · show db1.participants.map (activateParticipant s) = db1.participants
          rw [hdb1part]
          exact map_activateParticipant_idem s db.participants

/-- Claim C2 witness: the amended theorem applied to the concrete conversion
scenario — wdb holds exactly one matching unconverted referral, the first run
succeeds, and the redelivered event changes nothing but the audit log. -/
theorem C2_amended_witness :
    ((wdb.referrals.filter (fun r =>
        decide (r.participantEmail = wsess.customer_email ∧
                r.referralCode = wsess.metadata.referralCode ∧
                r.isConverted = false))).length ≤ 1 ∧
      handleCheckoutSessionCompleted wsess wdb = Except.ok wdb1) ∧
    ∃ db2, handleCheckoutSessionCompleted wsess wdb1 = Except.ok db2 ∧
      db2.payments = wdb1.payments ∧
      db2.participants = wdb1.participants ∧
      db2.referrals = wdb1.referrals ∧
      db2.promoters = wdb1.promoters ∧
      db2.users = wdb1.users ∧
      ∃ entry, db2.auditLog = wdb1.auditLog ++ [entry] :=
  ⟨⟨by decide, rfl⟩, C2_amended_redelivery_noop wsess wdb wdb1 (by decide) rfl⟩
